import Mathlib

/-!
Verification of the generic filter/search/pagination query engine of the
demo-management-service repository.

The development shallowly embeds the Python source:

* `app/repository/baseapp_repository.py` — operator mapping table,
  `parse_date_value`, and `BaseAppRepository.get_all` (filter-tree
  composition, clause building per column type, search, soft-delete
  exclusion, ordering, pagination, and the execution `try/except`).
* `app/helper/fastapi/get_header.py` — `get_list_params` filters parsing.
* `app/service/demo_service.py` / `app/api/v1/endpoints/demo_endpoint.py`
  — the list pipeline that recomputes pagination from the returned page.

Modelling conventions:

* SQL rows are association lists from column names to `Value`s; a datetime
  is an integer count of microseconds since the Unix epoch, and a SQL
  `date` is an integer day number (microseconds divided by `usPerDay`,
  floor division).
* SQL three-valued logic is collapsed to `Bool`: every comparison that
  involves SQL `NULL` evaluates to `false` (rows are not selected), which
  matches `WHERE`-clause behaviour for all predicates the engine builds.
* Python `dict.get` defaults are baked into structure-field defaults.
* The database round trips of `get_all` are modelled twice: `get_all`
  runs the whole pipeline over an in-memory list of rows, and
  `get_all_run` models only the final `try/except` block over abstract
  query outcomes (`Except`), mirroring how the source wraps storage
  failures.
-/

namespace DemoSpec

/-! ### Column values and rows -/

/-- A SQL column value: NULL, integer, string, boolean, or a datetime
given as microseconds since the Unix epoch. -/
inductive Value where
  | vnull
  | vint (n : Int)
  | vstr (s : String)
  | vbool (b : Bool)
  | vdt (t : Int)
deriving DecidableEq, Repr

/-- A row is an association list from column names to values
(`getattr(row, col)` becomes lookup). -/
abbrev Row := List (String × Value)

/-- Column access on a row; absent columns read as NULL (the engine only
ever accesses columns guarded by `hasattr`). -/
def rowGet (r : Row) (c : String) : Value :=
  match r.find? (fun p => p.1 == c) with
  | some p => p.2
  | none => Value.vnull

/-! ### JSON values (client-supplied filter payloads) -/

/-- JSON values as decoded by `json.loads`; Python booleans are kept
separate from numbers, and numbers are modelled as integers. -/
inductive JVal where
  | jnull
  | jbool (b : Bool)
  | jnum (n : Int)
  | jstr (s : String)
  | jlist (xs : List JVal)
  | jdict (fields : List (String × JVal))
deriving Repr

/-- `d.get(k)` on a JSON object, `None` otherwise unreachable in the
modelled paths. -/
def jGet (j : JVal) (k : String) : Option JVal :=
  match j with
  | JVal.jdict fields =>
      match fields.find? (fun p => p.1 == k) with
      | some p => some p.2
      | none => none
  | _ => none

/-! ### String helpers -/

/-- Whether `pat` occurs inside `hay` (Python `pat in hay` on a list of
characters). -/
def hasSubstr (hay pat : List Char) : Bool :=
  match hay with
  | [] => pat.isEmpty
  | c :: t => pat.isPrefixOf (c :: t) || hasSubstr t pat

/-- Python's `pat in hay` for strings. -/
def strIn (pat hay : String) : Bool :=
  hasSubstr hay.toList pat.toList

/-- ASCII lower-casing of a string (`str.lower()` / SQL `lower(...)`),
written over the character list so that it evaluates by reduction. -/
def lowerS (s : String) : String :=
  String.mk (s.toList.map Char.toLower)

/-- ASCII upper-casing of a string (`str.upper()`). -/
def upperS (s : String) : String :=
  String.mk (s.toList.map Char.toUpper)

/-- SQL `LIKE` matching over characters: `%` matches any run, `_` one
character, anything else itself. -/
def likeChars : List Char → List Char → Bool
  | [], s => s.isEmpty
  | '%' :: ps, s => s.tails.any (fun suffix => likeChars ps suffix)
  | '_' :: ps, s =>
      (match s with
       | [] => false
       | _ :: s2 => likeChars ps s2)
  | p :: ps, s =>
      (match s with
       | [] => false
       | c :: s2 => p == c && likeChars ps s2)

/-- `column LIKE pattern` (case sensitive). -/
def likeS (s pat : String) : Bool :=
  likeChars pat.toList s.toList

/-- `column ILIKE pattern` (case insensitive, as produced by
`column_attr.ilike(...)`). -/
def ilikeS (s pat : String) : Bool :=
  likeChars (lowerS pat).toList (lowerS s).toList

/-- Python `str(value)` for JSON values, as used by `str(value).lower()`
and f-string interpolation in the text branch. Structured values (which
Python would render with brackets and their elements) are rendered as
opaque tokens: the engine only ever interpolates scalar filter values
and no modelled behaviour depends on that rendering. -/
def pyStr : JVal → String
  | JVal.jnull => "None"
  | JVal.jbool b => if b then "True" else "False"
  | JVal.jnum n => toString n
  | JVal.jstr s => s
  | JVal.jlist _ => "[...]"
  | JVal.jdict _ => "\x7b...\x7d"


/-! ### Calendar arithmetic

Days are counted from the Unix epoch (1970-01-01 is day 0); the civil
conversions are the standard proleptic-Gregorian algorithms used by
Python's `datetime`. -/

def usPerSec : Int := 1000000
def usPerHour : Int := 3600000000
def usPerDay : Int := 86400000000

/-- `func.date(column)` / `datetime.date()` on a microsecond timestamp:
the day number, floor division. -/
def dayOfUs (t : Int) : Int := t.fdiv usPerDay

/-- Time of day in microseconds (`func.time(column)`). -/
def todOfUs (t : Int) : Int := t.emod usPerDay

def isLeapYear (y : Int) : Bool :=
  (y % 4 == 0 && y % 100 != 0) || (y % 400 == 0)

def daysInMonth (y m : Int) : Int :=
  if m == 2 then (if isLeapYear y then 29 else 28)
  else if m == 4 || m == 6 || m == 9 || m == 11 then 30
  else 31

/-- Day number of a civil date (Howard Hinnant's `days_from_civil`). -/
def daysFromCivil (y m d : Int) : Int :=
  let y2 := if m ≤ 2 then y - 1 else y
  let era := (if 0 ≤ y2 then y2 else y2 - 399).fdiv 400
  let yoe := y2 - era * 400
  let mp := if 2 < m then m - 3 else m + 9
  let doy := (153 * mp + 2).fdiv 5 + d - 1
  let doe := yoe * 365 + yoe.fdiv 4 - yoe.fdiv 100 + doy
  era * 146097 + doe - 719468

/-- Civil date (year, month, day) of a day number (Hinnant's
`civil_from_days`). -/
def civilFromDays (z : Int) : Int × Int × Int :=
  let z2 := z + 719468
  let era := (if 0 ≤ z2 then z2 else z2 - 146096).fdiv 146097
  let doe := z2 - era * 146097
  let yoe := (doe - doe.fdiv 1460 + doe.fdiv 36524 - doe.fdiv 146096).fdiv 365
  let y := yoe + era * 400
  let doy := doe - (365 * yoe + yoe.fdiv 4 - yoe.fdiv 100)
  let mp := (5 * doy + 2).fdiv 153
  let d := doy - (153 * mp + 2).fdiv 5 + 1
  let m := if mp < 10 then mp + 3 else mp - 9
  (if m ≤ 2 then y + 1 else y, m, d)

/-- Python `date.weekday()`: Monday is 0.  Day 0 (1970-01-01) was a
Thursday. -/
def weekdayOf (d : Int) : Int := (d + 3).emod 7

/-! ### `parse_date_value` -/

/-- The runtime type of a value reaching `parse_date_value`: Python
dispatches on `isinstance`. A JSON boolean is a Python `bool`, which is a
subclass of `int`, hence lands in the numeric case. -/
inductive PyObj where
  | pynone
  | pydt (t : Int)
  | pydate (d : Int)
  | pystr (s : String)
  | pynum (n : Int)
  | pyother
deriving DecidableEq, Repr

/-- How a JSON value is seen by `parse_date_value`'s `isinstance`
dispatch. -/
def pyObjOfJ : JVal → PyObj
  | JVal.jnull => PyObj.pynone
  | JVal.jbool b => PyObj.pynum (if b then 1 else 0)
  | JVal.jnum n => PyObj.pynum n
  | JVal.jstr s => PyObj.pystr s
  | JVal.jlist _ => PyObj.pyother
  | JVal.jdict _ => PyObj.pyother

def digitVal (c : Char) : Option Nat :=
  if c.isDigit then some (c.toNat - '0'.toNat) else none

def digitsToNat (cs : List Char) : Nat :=
  cs.foldl (fun acc c => acc * 10 + (c.toNat - '0'.toNat)) 0

/-- Splitting a character list on a single-character separator, matching
`str.split(sep)` / `String.splitOn` for the one-character separators used
by the fallback formats. -/
def splitOnSep (sep : Char) : List Char → List (List Char)
  | [] => [[]]
  | c :: cs =>
      let rest := splitOnSep sep cs
      if c == sep then [] :: rest
      else
        match rest with
        | [] => [[c]]
        | g :: gs => (c :: g) :: gs

/-- A `strptime` numeric field: a run of `minLen` to `maxLen` digits whose
value lies in `[lo, hi]` (this reproduces the CPython `_strptime` regexes
for `%Y`, `%m`, `%d`, `%H`, `%M`, `%S`, which are always followed by a
separator or the end of the format in the formats below). -/
def parseField (minLen maxLen lo hi : Nat) (cs : List Char) : Option Nat :=
  if minLen ≤ cs.length && cs.length ≤ maxLen && cs.all Char.isDigit then
    let v := digitsToNat cs
    if lo ≤ v && v ≤ hi then some v else none
  else none

/-- `datetime(year, month, day)` construction check: year in `1..9999`,
month handled by the field parse, day within the month. -/
def mkDateDay (y m d : Nat) : Option Int :=
  if 1 ≤ y && (d : Int) ≤ daysInMonth (y : Int) (m : Int) then
    some (daysFromCivil (y : Int) (m : Int) (d : Int))
  else none

/-- `datetime.strptime(value, "%Y-%m-%d")`, as a microsecond timestamp. -/
def strptimeYmd (s : String) : Option Int :=
  match splitOnSep '-' s.toList with
  | [ys, ms, ds] => do
      let y ← parseField 4 4 0 9999 ys
      let m ← parseField 1 2 1 12 ms
      let d ← parseField 1 2 1 31 ds
      let day ← mkDateDay y m d
      pure (day * usPerDay)
  | _ => none

/-- `datetime.strptime(value, "%Y-%m-%d %H:%M:%S")`. -/
def strptimeYmdHms (s : String) : Option Int :=
  match splitOnSep ' ' s.toList with
  | [datePart, timePart] => do
      let day ←
        (match splitOnSep '-' datePart with
         | [ys, ms, ds] => do
             let y ← parseField 4 4 0 9999 ys
             let m ← parseField 1 2 1 12 ms
             let d ← parseField 1 2 1 31 ds
             mkDateDay y m d
         | _ => none)
      match splitOnSep ':' timePart with
      | [hs, mins, ss] => do
          let h ← parseField 1 2 0 23 hs
          let mi ← parseField 1 2 0 59 mins
          let sec ← parseField 1 2 0 59 ss
          pure (day * usPerDay + ((h : Int) * 3600 + (mi : Int) * 60 + (sec : Int)) * usPerSec)
      | _ => none
  | _ => none

/-- `datetime.strptime(value, "%Y/%m/%d")`. -/
def strptimeYmdSlash (s : String) : Option Int :=
  match splitOnSep '/' s.toList with
  | [ys, ms, ds] => do
      let y ← parseField 4 4 0 9999 ys
      let m ← parseField 1 2 1 12 ms
      let d ← parseField 1 2 1 31 ds
      let day ← mkDateDay y m d
      pure (day * usPerDay)
  | _ => none

/-- `datetime.strptime(value, "%d-%m-%Y")`. -/
def strptimeDmy (s : String) : Option Int :=
  match splitOnSep '-' s.toList with
  | [ds, ms, ys] => do
      let d ← parseField 1 2 1 31 ds
      let m ← parseField 1 2 1 12 ms
      let y ← parseField 4 4 0 9999 ys
      let day ← mkDateDay y m d
      pure (day * usPerDay)
  | _ => none

/-- The fixed fallback format list of `parse_date_value`, in source
order: `%Y-%m-%d`, `%Y-%m-%d %H:%M:%S`, `%Y/%m/%d`, `%d-%m-%Y`. -/
def strptimeFormats : List (String → Option Int) :=
  [strptimeYmd, strptimeYmdHms, strptimeYmdSlash, strptimeDmy]

/-- The `for fmt in [...]` loop: try each format, first success wins. -/
def tryFormats : List (String → Option Int) → String → Option Int
  | [], _ => none
  | f :: fs, s =>
      match f s with
      | some t => some t
      | none => tryFormats fs s

def twoDigitsV (c1 c2 : Char) : Option Nat := do
  let a ← digitVal c1
  let b ← digitVal c2
  pure (a * 10 + b)

def fourDigitsV (c1 c2 c3 c4 : Char) : Option Nat := do
  let a ← digitVal c1
  let b ← digitVal c2
  let c ← digitVal c3
  let d ← digitVal c4
  pure (((a * 10 + b) * 10 + c) * 10 + d)

/-- Maximal digit prefix of a character list. -/
def takeDigits : List Char → (List Char × List Char)
  | [] => ([], [])
  | c :: cs =>
      if c.isDigit then
        let (ds, rest) := takeDigits cs
        (c :: ds, rest)
      else ([], c :: cs)

/-- A fractional-second suffix `.f{1,6}`, as microseconds. -/
def parseFraction (cs : List Char) : Option (Int × List Char) :=
  match cs with
  | '.' :: cs2 =>
      let (ds, rest) := takeDigits cs2
      if 1 ≤ ds.length && ds.length ≤ 6 then
        some ((digitsToNat ds * 10 ^ (6 - ds.length) : Nat), rest)
      else none
  | cs => some (0, cs)

/-- A trailing UTC-offset `±HH:MM` (empty means a naive datetime); an
aware datetime is normalised to its UTC instant. -/
def parseIsoOffset (day : Int) (timeUs : Int) (cs : List Char) : Option Int :=
  match cs with
  | [] => some (day * usPerDay + timeUs)
  | [sign, h1, h2, ':', m1, m2] =>
      if sign == '+' || sign == '-' then do
        let oh ← twoDigitsV h1 h2
        let om ← twoDigitsV m1 m2
        if oh ≤ 23 && om ≤ 59 then
          let off := ((oh : Int) * 3600 + (om : Int) * 60) * usPerSec
          pure (day * usPerDay + timeUs - (if sign == '-' then -off else off))
        else none
      else none
  | _ => none

/-- Time-of-day part of an ISO string: `HH:MM[:SS[.ffffff]][±HH:MM]`. -/
def parseIsoTime (day : Int) (cs : List Char) : Option Int :=
  match cs with
  | h1 :: h2 :: ':' :: m1 :: m2 :: rest => do
      let h ← twoDigitsV h1 h2
      let mi ← twoDigitsV m1 m2
      if h ≤ 23 && mi ≤ 59 then
        match rest with
        | ':' :: s1 :: s2 :: rest2 => do
            let sec ← twoDigitsV s1 s2
            if sec ≤ 59 then do
              let (frac, rest3) ← parseFraction rest2
              parseIsoOffset day
                (((h : Int) * 3600 + (mi : Int) * 60 + (sec : Int)) * usPerSec + frac) rest3
            else none
        | _ =>
            parseIsoOffset day (((h : Int) * 3600 + (mi : Int) * 60) * usPerSec) rest
      else none
  | _ => none

/-- `datetime.fromisoformat` on the zero-padded subset
`YYYY-MM-DD[('T'|' ')HH:MM[:SS[.ffffff]][±HH:MM]]`. -/
def parseIso (s : String) : Option Int :=
  match s.toList with
  | y1 :: y2 :: y3 :: y4 :: '-' :: mo1 :: mo2 :: '-' :: d1 :: d2 :: rest => do
      let y ← fourDigitsV y1 y2 y3 y4
      let mo ← twoDigitsV mo1 mo2
      let d ← twoDigitsV d1 d2
      if 1 ≤ mo && mo ≤ 12 then
        match mkDateDay y mo d with
        | some day =>
            match rest with
            | [] => some (day * usPerDay)
            | c :: rest2 =>
                if c == 'T' || c == ' ' then parseIsoTime day rest2 else none
        | none => none
      else none
  | _ => none

/-- `value.replace('Z', '+00:00')` on the character list. -/
def replaceZChars : List Char → List Char
  | [] => []
  | 'Z' :: cs => '+' :: '0' :: '0' :: ':' :: '0' :: '0' :: replaceZChars cs
  | c :: cs => c :: replaceZChars cs

/-- `value.replace('Z', '+00:00')` (every occurrence, as in the source;
for ISO inputs the `Z` can only be trailing). -/
def pyReplaceZ (s : String) : String := String.mk (replaceZChars s.toList)

/-- Least/greatest epoch seconds `datetime.fromtimestamp` accepts
(years 1–9999, taken at UTC). -/
def minTimestamp : Int := daysFromCivil 1 1 1 * 86400

def maxTimestamp : Int := (daysFromCivil 9999 12 31 + 1) * 86400 - 1

/-- `datetime.fromtimestamp(value)`; out-of-range values raise, which the
source catches and turns into a fall-through (here: `none`). -/
def fromtimestampOpt (n : Int) : Option Int :=
  if minTimestamp ≤ n && n ≤ maxTimestamp then some (n * usPerSec) else none

/-- `parse_date_value` (baseapp_repository.py, lines 72–108): isinstance
dispatch over datetime / date / str / numeric; strings try ISO first
(after replacing `Z`), then the four fallback formats in order; every
failure path reaches the final `return None` and nothing raises. -/
def parse_date_value : PyObj → Option Int
  | PyObj.pynone => none
  | PyObj.pydt t => some t
  | PyObj.pydate d => some (d * usPerDay)
  | PyObj.pystr s =>
      -- try ISO format first, then the common-format loop; a string never
      -- reaches the numeric branch, so total failure returns None
      (match parseIso (pyReplaceZ s) with
       | some t => some t
       | none => tryFormats strptimeFormats s)
  | PyObj.pynum n => fromtimestampOpt n
  | PyObj.pyother => none

/-! ### Operator mapping table -/

/-- `OPERATOR_MAPPING` (baseapp_repository.py, lines 18–65). -/
def operatorMapping : List (String × String) :=
  [("equal_to", "eq"), ("not_equal_to", "ne"), ("greater_than", "gt"),
   ("less_than", "lt"), ("between", "between"),
   ("greater_than_or_equal", "gte"), ("less_than_or_equal", "lte"),
   ("is", "is"), ("is_not", "is_not"), ("contains", "contains"),
   ("does_not_contain", "not_contains"), ("starts_with", "startswith"),
   ("ends_with", "endswith"), ("is_empty", "is_empty"),
   ("is_not_empty", "not_empty"),
   ("today", "today"), ("yesterday", "yesterday"),
   ("previous_day", "previous_day"), ("previous_7_days", "previous_7_days"),
   ("previous_30_days", "previous_30_days"),
   ("previous_1_month", "previous_1_month"),
   ("previous_3_months", "previous_3_months"),
   ("previous_12_months", "previous_12_months"),
   ("before", "before"), ("after", "after"), ("on", "on"),
   ("previous", "previous"), ("current", "current"), ("next", "next"),
   ("this_hour", "this_hour"), ("last_hour", "last_hour"),
   ("last_3_hours", "last_3_hours"), ("morning", "morning"),
   ("afternoon", "afternoon"), ("evening", "evening"), ("night", "night")]

/-- `map_frontend_operator`: table lookup with pass-through fallback.
`f.get("operator")` can be absent (`None`), which passes through. -/
def map_frontend_operator (op : Option String) : Option String :=
  match op with
  | none => none
  | some o =>
      match operatorMapping.find? (fun p => p.1 == o) with
      | some p => some p.2
      | none => some o

/-! ### Filter rules -/

/-- The `relativeDateRange` sub-object; field defaults mirror
`rel_range.get("periodType", "day")`, `.get("count", 1)`,
`.get("includeToday", False)`. -/
structure RelRange where
  periodType : String := "day"
  count : Int := 1
  includeToday : Bool := false
deriving DecidableEq, Repr

/-- One client filter rule, with the `f.get(...)` defaults of the source
baked in as field defaults. -/
structure FilterRule where
  column : Option String := none
  operator : Option String := none
  value : JVal := JVal.jnull
  value2 : JVal := JVal.jnull
  logical : String := "and"
  caseSensitive : Bool := false
  columns : Option (List (Option String)) := none
  relativeDateRange : Option RelRange := none
deriving Repr

/-! ### Value-level SQL predicates -/

/-- Numeric comparison of a column value with a JSON operand; NULL or
non-numeric operands select nothing. -/
def numCmpV (cmp : Int → Int → Bool) (v : Value) (j : JVal) : Bool :=
  match v, j with
  | Value.vint a, JVal.jnum b => cmp a b
  | _, _ => false

def dtGeV (v : Value) (bound : Int) : Bool :=
  match v with
  | Value.vdt t => bound ≤ t
  | _ => false

def dtGtV (v : Value) (bound : Int) : Bool :=
  match v with
  | Value.vdt t => bound < t
  | _ => false

def dtLeV (v : Value) (bound : Int) : Bool :=
  match v with
  | Value.vdt t => t ≤ bound
  | _ => false

def dtLtV (v : Value) (bound : Int) : Bool :=
  match v with
  | Value.vdt t => t < bound
  | _ => false

/-- `func.date(column) == d`. -/
def dateEqV (v : Value) (d : Int) : Bool :=
  match v with
  | Value.vdt t => dayOfUs t == d
  | _ => false

/-- `func.date(column).between(a, b)`. -/
def dateBetweenV (v : Value) (a b : Int) : Bool :=
  match v with
  | Value.vdt t => a ≤ dayOfUs t && dayOfUs t ≤ b
  | _ => false

/-- `func.time(column).between(lo, hi)` in microseconds of the day. -/
def todBetweenV (v : Value) (lo hi : Int) : Bool :=
  match v with
  | Value.vdt t => lo ≤ todOfUs t && todOfUs t ≤ hi
  | _ => false

/-- The boolean-branch value coercion (lines 228–236): `'true'`/`'false'`
strings (case-insensitive) and native booleans; everything else leaves
`bool_value = None`. -/
def pyBoolOf (value : JVal) : Option Bool :=
  match value with
  | JVal.jstr s =>
      if lowerS s == "true" then some true
      else if lowerS s == "false" then some false
      else none
  | JVal.jbool b => some b
  | _ => none

/-- One `clause_part` of `get_all` (baseapp_repository.py, lines
179–460): dispatch on the stringified column type, then on the mapped
operator; every unmatched combination yields `none` (no predicate). -/
def buildClausePart (colType : String) (op : Option String) (value value2 : JVal)
    (caseSensitive : Bool) (relRange : Option RelRange)
    (today : Int) (now : Int) : Option (Value → Bool) :=
  -- Number filters
  if ["int", "numeric", "float", "decimal"].any (fun t => strIn t colType) then
    if op == some "eq" then some (fun v => numCmpV (fun a b => a == b) v value)
    else if op == some "ne" then some (fun v => numCmpV (fun a b => a != b) v value)
    else if op == some "gt" then some (fun v => numCmpV (fun a b => b < a) v value)
    else if op == some "gte" then some (fun v => numCmpV (fun a b => b ≤ a) v value)
    else if op == some "lt" then some (fun v => numCmpV (fun a b => a < b) v value)
    else if op == some "lte" then some (fun v => numCmpV (fun a b => a ≤ b) v value)
    else if op == some "between" then
      some (fun v => numCmpV (fun a b => b ≤ a) v value && numCmpV (fun a b => a ≤ b) v value2)
    else if op == some "is_empty" then some (fun v => v == Value.vnull)
    else if op == some "not_empty" then some (fun v => v != Value.vnull)
    else none
  -- Text filters
  else if ["char", "text", "string"].any (fun t => strIn t colType) then
    if op == some "is" then
      some (fun v =>
        match v with
        | Value.vstr s =>
            if caseSensitive then
              match value with
              | JVal.jstr t => s == t
              | _ => false
            else lowerS s == lowerS (pyStr value)
        | _ => false)
    else if op == some "is_not" then
      some (fun v =>
        match v with
        | Value.vstr s =>
            if caseSensitive then
              match value with
              | JVal.jstr t => s != t
              | _ => false
            else lowerS s != lowerS (pyStr value)
        | _ => false)
    else if op == some "as_it" then
      -- case-insensitive equality: func.lower(column) == cmp_value
      some (fun v =>
        match v with
        | Value.vstr s =>
            if caseSensitive then
              match value with
              | JVal.jstr t => lowerS s == t
              | _ => false
            else lowerS s == lowerS (pyStr value)
        | _ => false)
    else if op == some "contains" then
      some (fun v =>
        match v with
        | Value.vstr s =>
            if caseSensitive then likeS s ("%" ++ pyStr value ++ "%")
            else ilikeS s ("%" ++ pyStr value ++ "%")
        | _ => false)
    else if op == some "not_contains" then
      some (fun v =>
        match v with
        | Value.vstr s =>
            if caseSensitive then !(likeS s ("%" ++ pyStr value ++ "%"))
            else !(ilikeS s ("%" ++ pyStr value ++ "%"))
        | _ => false)
    else if op == some "startswith" then
      some (fun v =>
        match v with
        | Value.vstr s =>
            if caseSensitive then likeS s (pyStr value ++ "%")
            else ilikeS s (pyStr value ++ "%")
        | _ => false)
    else if op == some "endswith" then
      some (fun v =>
        match v with
        | Value.vstr s =>
            if caseSensitive then likeS s ("%" ++ pyStr value)
            else ilikeS s ("%" ++ pyStr value)
        | _ => false)
    else if op == some "is_empty" then some (fun v => v == Value.vnull)
    else if op == some "not_empty" then some (fun v => v != Value.vnull)
    else none
  -- Boolean filters
  else if strIn "bool" colType then
    let boolValue : Option Bool := pyBoolOf value
    if op == some "is" then
      -- column_attr.is_(bool_value); with bool_value = None this is IS NULL
      some (fun v =>
        match boolValue with
        | some b => v == Value.vbool b
        | none => v == Value.vnull)
    else if op == some "is_not" then
      some (fun v =>
        match boolValue with
        | some b => v != Value.vbool b
        | none => v != Value.vnull)
    else if op == some "is_empty" then some (fun v => v == Value.vnull)
    else if op == some "not_empty" then some (fun v => v != Value.vnull)
    else none
  -- Enum filters
  else if strIn "enum" colType then
    if op == some "is" then
      some (fun v =>
        match v, value with
        | Value.vstr s, JVal.jstr t => s == t
        | _, _ => false)
    else if op == some "is_not" then
      some (fun v =>
        match v, value with
        | Value.vstr s, JVal.jstr t => s != t
        | _, _ => false)
    else if op == some "is_empty" then some (fun v => v == Value.vnull)
    else if op == some "not_empty" then some (fun v => v != Value.vnull)
    else none
  -- Date / Time filters
  else if ["date", "time", "timestamp"].any (fun t => strIn t colType) then
    if op == some "today" then some (fun v => dateEqV v today)
    else if op == some "yesterday" then some (fun v => dateEqV v (today - 1))
    else if op == some "previous_day" then some (fun v => dateEqV v (today - 2))
    else if op == some "prev_7_days" || op == some "previous_7_days" then
      some (fun v => dtGeV v ((today - 7) * usPerDay))
    else if op == some "prev_30_days" || op == some "previous_30_days" then
      some (fun v => dtGeV v ((today - 30) * usPerDay))
    else if op == some "previous_1_month" then
      let lastPrev := daysFromCivil (civilFromDays today).1 (civilFromDays today).2.1 1 - 1
      let firstPrev := daysFromCivil (civilFromDays lastPrev).1 (civilFromDays lastPrev).2.1 1
      some (fun v => dateBetweenV v firstPrev lastPrev)
    else if op == some "previous_3_months" then
      some (fun v => dtGeV v ((today - 90) * usPerDay))
    else if op == some "previous_12_months" then
      some (fun v => dtGeV v ((today - 365) * usPerDay))
    else if op == some "between" then
      match value with
      | JVal.jlist (a :: b :: _) =>
          match parse_date_value (pyObjOfJ a), parse_date_value (pyObjOfJ b) with
          | some startDate, some endDate =>
              if strIn "timestamp" colType then
                some (fun v => dtGeV v startDate && dtLeV v endDate)
              else
                -- bounds narrowed with .date(); a timestamp column compares
                -- against the midnight instants of those dates
                some (fun v =>
                  dtGeV v (dayOfUs startDate * usPerDay) &&
                    dtLeV v (dayOfUs endDate * usPerDay))
          | _, _ => none
      | _ => none
    else if op == some "before" then
      match parse_date_value (pyObjOfJ value) with
      | some p => some (fun v => dtLtV v p)
      | none => none
    else if op == some "after" then
      match parse_date_value (pyObjOfJ value) with
      | some p => some (fun v => dtGtV v p)
      | none => none
    else if op == some "on" then
      match parse_date_value (pyObjOfJ value) with
      | some p => some (fun v => dateEqV v (dayOfUs p))
      | none => none
    -- Time operators
    else if op == some "this_hour" then
      some (fun v =>
        match v with
        | Value.vdt t => (t.fdiv usPerHour) * usPerHour == (now.fdiv usPerHour) * usPerHour
        | _ => false)
    else if op == some "last_hour" then
      some (fun v => dtGeV v (now - usPerHour) && dtLeV v now)
    else if op == some "last_3_hours" then
      some (fun v => dtGeV v (now - 3 * usPerHour) && dtLeV v now)
    else if op == some "morning" then
      some (fun v => todBetweenV v (6 * usPerHour) (12 * usPerHour))
    else if op == some "afternoon" then
      some (fun v => todBetweenV v (12 * usPerHour) (17 * usPerHour))
    else if op == some "evening" then
      some (fun v => todBetweenV v (17 * usPerHour) (22 * usPerHour))
    else if op == some "night" then
      some (fun v =>
        match v with
        | Value.vdt t => (22 * usPerHour ≤ todOfUs t) || (todOfUs t ≤ 6 * usPerHour)
        | _ => false)
    -- Relative range operators
    else if op == some "previous" then
      match relRange with
      | none => none
      | some rel =>
          let count := rel.count
          if rel.periodType == "day" then
            if rel.includeToday then
              some (fun v => dtGeV v ((today - (count - 1)) * usPerDay))
            else
              some (fun v =>
                dtGeV v ((today - count) * usPerDay) && dtLtV v (today * usPerDay))
          else if rel.periodType == "week" then
            let weeksInDays := count * 7
            if rel.includeToday then
              some (fun v => dtGeV v ((today - (weeksInDays - 1)) * usPerDay))
            else
              some (fun v =>
                dtGeV v ((today - weeksInDays) * usPerDay) && dtLtV v (today * usPerDay))
          else if rel.periodType == "month" then
            let monthsInDays := count * 30
            if rel.includeToday then
              some (fun v => dtGeV v ((today - (monthsInDays - 1)) * usPerDay))
            else
              some (fun v =>
                dtGeV v ((today - monthsInDays) * usPerDay) && dtLtV v (today * usPerDay))
          else if rel.periodType == "year" then
            let yearsInDays := count * 365
            if rel.includeToday then
              some (fun v => dtGeV v ((today - (yearsInDays - 1)) * usPerDay))
            else
              some (fun v =>
                dtGeV v ((today - yearsInDays) * usPerDay) && dtLtV v (today * usPerDay))
          else none
    else if op == some "current" then
      match relRange with
      | none => none
      | some rel =>
          if rel.periodType == "day" then some (fun v => dateEqV v today)
          else if rel.periodType == "week" then
            let startOfWeek := today - weekdayOf today
            some (fun v => dateBetweenV v startOfWeek (startOfWeek + 6))
          else if rel.periodType == "month" then
            let y := (civilFromDays today).1
            let m := (civilFromDays today).2.1
            let startOfMonth := daysFromCivil y m 1
            let endOfMonth :=
              if m == 12 then daysFromCivil (y + 1) 1 1 - 1
              else daysFromCivil y (m + 1) 1 - 1
            some (fun v => dateBetweenV v startOfMonth endOfMonth)
          else none
    else if op == some "next" then
      match relRange with
      | none => none
      | some rel =>
          let count := rel.count
          if rel.periodType == "day" then
            if rel.includeToday then
              some (fun v =>
                dtGeV v (today * usPerDay) && dtLtV v ((today + count) * usPerDay))
            else
              some (fun v =>
                dtGeV v ((today + 1) * usPerDay) &&
                  dtLtV v ((today + count + 1) * usPerDay))
          else if rel.periodType == "week" then
            let weeksInDays := count * 7
            if rel.includeToday then
              some (fun v =>
                dtGeV v (today * usPerDay) && dtLtV v ((today + weeksInDays) * usPerDay))
            else
              some (fun v =>
                dtGeV v ((today + 1) * usPerDay) &&
                  dtLtV v ((today + weeksInDays + 1) * usPerDay))
          else if rel.periodType == "month" then
            let monthsInDays := count * 30
            if rel.includeToday then
              some (fun v =>
                dtGeV v (today * usPerDay) && dtLtV v ((today + monthsInDays) * usPerDay))
            else
              some (fun v =>
                dtGeV v ((today + 1) * usPerDay) &&
                  dtLtV v ((today + monthsInDays + 1) * usPerDay))
          else none
    else none
  else none

/-! ### Model (entity) description -/

/-- One mapped column: its attribute name and `str(column.type).lower()`.
-/
structure ColSpec where
  name : String
  ctype : String
deriving DecidableEq, Repr

/-- `hasattr(self.model, c)` restricted to mapped columns. -/
def hasCol (cols : List ColSpec) (c : String) : Bool :=
  cols.any (fun k => k.name == c)

/-- `str(getattr(self.model, c).type).lower()`. -/
def colTypeOf (cols : List ColSpec) (c : String) : String :=
  match cols.find? (fun k => k.name == c) with
  | some k => k.ctype
  | none => ""

/-- The `DemoModel` columns (demo_model.py + baseapp_model.py) with their
stringified SQLAlchemy types, in `dir()` (alphabetical) order. -/
def demoColumns : List ColSpec :=
  [⟨"created_at", "datetime"⟩, ⟨"created_by", "uuid"⟩,
   ⟨"deleted_at", "datetime"⟩, ⟨"deleted_by", "uuid"⟩,
   ⟨"demo_id", "uuid"⟩, ⟨"error_message", "text"⟩,
   ⟨"error_user_message", "text"⟩, ⟨"is_active", "boolean"⟩,
   ⟨"logo", "varchar(255)"⟩, ⟨"name", "varchar(200)"⟩,
   ⟨"status", "varchar(20)"⟩, ⟨"updated_at", "datetime"⟩,
   ⟨"updated_by", "uuid"⟩]

/-! ### Per-rule clause composition -/

/-- The body of the `for col in columns` loop before combination (lines
170–460): skip a `None` column name, skip an unknown attribute, build the
typed `clause_part`, and lift it from the column value to the row. -/
def rulePartFor (cols : List ColSpec) (op : Option String) (f : FilterRule)
    (today now : Int) (col : Option String) : Option (Row → Bool) :=
  match col with
  | none => none
  | some c =>
      if hasCol cols c then
        match buildClausePart (lowerS (colTypeOf cols c)) op f.value f.value2
            f.caseSensitive f.relativeDateRange today now with
        | none => none
        | some p => some (fun r => p (rowGet r c))
      else none

/-- Lines 462–470: fold one optional `clause_part` into the running
`clause`, combining with `or_` when the rule's `logical` is `"or"` and
with `and_` otherwise. -/
def combineRuleClause (isOr : Bool) (clause part : Option (Row → Bool)) :
    Option (Row → Bool) :=
  match part with
  | none => clause
  | some p =>
      match clause with
      | none => some p
      | some cl =>
          some (if isOr then fun r => cl r || p r else fun r => cl r && p r)

/-- Lines 160–166: the column set one rule resolves to. -/
def ruleTargetCols (f : FilterRule) : List (Option String) :=
  if f.column == some "search" then f.columns.getD [f.column] else [f.column]

/-- The inner `for col in columns` loop of `get_all` (lines 160–470): each
column contributes an optional `clause_part`; non-null parts are folded
into `clause` with the rule's own `logical` field (`or_` when it is
`"or"`, `and_` otherwise). -/
def buildRuleClause (cols : List ColSpec) (f : FilterRule)
    (today now : Int) : Option (Row → Bool) :=
  let op := map_frontend_operator f.operator
  (ruleTargetCols f).foldl
    (fun clause col =>
      combineRuleClause (f.logical == "or") clause (rulePartFor cols op f today now col))
    none

/-- The non-null per-column predicates a rule resolves to (the
`clause_part`s that survive the guards), in column order. -/
def ruleParts (cols : List ColSpec) (f : FilterRule)
    (today now : Int) : List (Row → Bool) :=
  (ruleTargetCols f).filterMap
    (rulePartFor cols (map_frontend_operator f.operator) f today now)

/-- Lines 472–478: a non-null rule clause is appended to `where_clauses`,
negated first when the rule's `logical` is `"not"`. -/
def ruleToWhere (cols : List ColSpec) (f : FilterRule)
    (today now : Int) : Option (Row → Bool) :=
  match buildRuleClause cols f today now with
  | none => none
  | some cl => some (if f.logical == "not" then fun r => !(cl r) else cl)

def whereClauses (cols : List ColSpec) (rules : List FilterRule)
    (today now : Int) : List (Row → Bool) :=
  rules.filterMap (fun f => ruleToWhere cols f today now)

/-! ### Search, final clause assembly, ordering, pagination -/

/-- Lines 480–494: one `ilike` clause per string-typed column when a
non-empty search term is given. -/
def searchClauses (cols : List ColSpec) (search : Option String) :
    List (Row → Bool) :=
  match search with
  | none => []
  | some s =>
      if s == "" then []
      else
        (cols.filter (fun k =>
          ["char", "text", "string"].any (fun t => strIn t (lowerS k.ctype)))).map
          (fun k => fun r =>
            match rowGet r k.name with
            | Value.vstr str => ilikeS str ("%" ++ s ++ "%")
            | _ => false)

/-- The filter tree as received by `get_all`: `None`, the
`{"Filters": [...], "logic": ...}` dict, or the legacy bare list. -/
inductive FiltersInput where
  | fnone
  | fdict (rules : List FilterRule) (logic : String)
  | flist (rules : List FilterRule)

/-- Lines 150–158: extract `(filter_rules, overall_logic)`. -/
def normalizeFilters : FiltersInput → List FilterRule × String
  | FiltersInput.fnone => ([], "AND")
  | FiltersInput.fdict rules logic => (rules, logic)
  | FiltersInput.flist rules => (rules, "AND")

/-- Lines 497–511: group the rule clauses under the tree-level logic, add
the search clause, and add the soft-delete clause when the entity has a
`status` attribute. -/
def finalClauses (cols : List ColSpec) (filters : FiltersInput)
    (search : Option String) (today now : Int) : List (Row → Bool) :=
  let (rules, overallLogic) := normalizeFilters filters
  let wcs := whereClauses cols rules today now
  let scs := searchClauses cols search
  (if wcs.isEmpty then []
   else if upperS overallLogic == "ANY" || upperS overallLogic == "OR" then
     [fun r => wcs.any (fun c => c r)]
   else
     [fun r => wcs.all (fun c => c r)]) ++
  (if scs.isEmpty then [] else [fun r => scs.any (fun c => c r)]) ++
  (if hasCol cols "status" then
     [fun r =>
       match rowGet r "status" with
       | Value.vstr s => s != "deleted"
       | _ => false]
   else [])

/-- Lines 513–515: the WHERE application shared by the data query and the
count query (`and_(*final_clauses)` when any clause exists). -/
def filteredRows (cols : List ColSpec) (filters : FiltersInput)
    (search : Option String) (today now : Int) (db : List Row) : List Row :=
  let fcs := finalClauses cols filters search today now
  if fcs.isEmpty then db else db.filter (fun r => fcs.all (fun c => c r))

/-- `order_by.startswith("-")`. -/
def strStartsWithDash (s : String) : Bool :=
  match s.toList with
  | c :: _ => c == '-'
  | [] => false

/-- `order_by[1:]`. -/
def strTail (s : String) : String := String.mk (s.toList.drop 1)

/-- A total order on column values used to model `ORDER BY`; constructor
rank first, then the payload. -/
def valLe (a b : Value) : Bool :=
  match a, b with
  | Value.vnull, _ => true
  | _, Value.vnull => false
  | Value.vint x, Value.vint y => x ≤ y
  | Value.vint _, _ => true
  | _, Value.vint _ => false
  | Value.vstr x, Value.vstr y => x ≤ y
  | Value.vstr _, _ => true
  | _, Value.vstr _ => false
  | Value.vbool x, Value.vbool y => !x || y
  | Value.vbool _, _ => true
  | _, Value.vbool _ => false
  | Value.vdt x, Value.vdt y => x ≤ y

/-- Lines 517–526: ordering. A given non-empty `order_by` is applied only
when the named field exists (there is NO fallback otherwise); the
descending-`created_at` default applies only when `order_by` is falsy. -/
def applyOrder (cols : List ColSpec) (order_by : Option String)
    (rows : List Row) : List Row :=
  let defaultOrder : List Row → List Row := fun rs =>
    if hasCol cols "created_at" then
      rs.mergeSort (fun a b => valLe (rowGet b "created_at") (rowGet a "created_at"))
    else rs
  match order_by with
  | some ob =>
      if ob == "" then defaultOrder rows
      else
        let descFlag := strStartsWithDash ob
        let fieldName := if descFlag then strTail ob else ob
        if hasCol cols fieldName then
          rows.mergeSort (fun a b =>
            if descFlag then valLe (rowGet b fieldName) (rowGet a fieldName)
            else valLe (rowGet a fieldName) (rowGet b fieldName))
        else rows
  | none => defaultOrder rows

structure Pagination where
  total_count : Nat
  offset : Nat
  limit : Nat
  total_pages : Nat
deriving DecidableEq, Repr

structure QueryResult where
  data : List Row
  pagination : Pagination
deriving DecidableEq, Repr

/-- `ceil(total_count / limit) if limit else 1` (math.ceil over exact
division). -/
def pyTotalPages (totalCount limit : Nat) : Nat :=
  if limit == 0 then 1 else (totalCount + limit - 1) / limit

def mkPagination (totalCount skip limit : Nat) : Pagination :=
  ⟨totalCount, skip, limit, pyTotalPages totalCount limit⟩

/-- `BaseAppRepository.get_all` over an in-memory table: the composed
predicate set is applied identically to the count and the data query;
the data query is then ordered, offset and limited. -/
def get_all (cols : List ColSpec) (filters : FiltersInput)
    (search : Option String) (order_by : Option String)
    (skip limit : Nat) (today now : Int) (db : List Row) : QueryResult :=
  let filtered := filteredRows cols filters search today now db
  let data := ((applyOrder cols order_by filtered).drop skip).take limit
  ⟨data, mkPagination filtered.length skip limit⟩

/-- Lines 531–546: the execution block. The count query runs first; any
failure of either round trip is wrapped into the single
`InternalServerErrorException` message; `.scalar() or 0` defaults a NULL
count to 0. -/
def dataRetrievalErrorMsg (e : String) : String :=
  "Database error during data retrieval" ++ ": " ++ e

def get_all_run (countRes : Except String (Option Nat))
    (dataRes : Except String (List Row)) (skip limit : Nat) :
    Except String QueryResult :=
  match countRes with
  | Except.error e => Except.error (dataRetrievalErrorMsg e)
  | Except.ok c =>
      match dataRes with
      | Except.error e => Except.error (dataRetrievalErrorMsg e)
      | Except.ok data => Except.ok ⟨data, mkPagination (c.getD 0) skip limit⟩

/-! ### Service and endpoint layer (demo_service.py, demo_endpoint.py) -/

/-- `DemoService.list_all` (demo_service.py, lines 77–97): the repository
result is a dict, so only its `"data"` list survives; the independent
count is discarded. -/
def list_all (cols : List ColSpec) (filters : FiltersInput)
    (search : Option String) (order_by : Option String)
    (skip limit : Nat) (today now : Int) (db : List Row) : List Row :=
  (get_all cols filters search order_by skip limit today now db).data

structure ListResponse where
  success : Bool
  data : List Row
  pagination : Pagination
deriving DecidableEq, Repr

/-- `list_workspaces` (demo_endpoint.py, lines 108–133): the service
returns a bare list, so the endpoint recomputes `total_count` as the
length of the returned page and `total_pages` as
`(total_count + limit - 1) // limit if total_count > 0 else 0`. -/
def list_workspaces (cols : List ColSpec) (filters : FiltersInput)
    (search : Option String) (order_by : Option String)
    (offset limit : Nat) (today now : Int) (db : List Row) : ListResponse :=
  let data := list_all cols filters search order_by offset limit today now db
  let totalCount := data.length
  let totalPages := if 0 < totalCount then (totalCount + limit - 1) / limit else 0
  ⟨true, data, ⟨totalCount, offset, limit, totalPages⟩⟩

/-! ### `get_list_params` (get_header.py, lines 40–74) -/

/-- The parsing step for the `filters` query parameter: a falsy value or
malformed JSON yields `None`; a decoded dict containing `"Filters"` is
passed whole; a decoded list is wrapped; anything else becomes `None`.
`json.loads` is an external collaborator, passed in as a function whose
`none` result stands for a raised `JSONDecodeError`. -/
def parseFiltersParam (jsonLoads : String → Option JVal)
    (filters : Option String) : Option JVal :=
  match filters with
  | none => none
  | some s =>
      if s == "" then none
      else
        match jsonLoads s with
        | none => none
        | some data =>
            match data with
            | JVal.jdict fields =>
                if fields.any (fun kv => kv.1 == "Filters") then
                  some (JVal.jdict fields)
                else none
            | JVal.jlist xs =>
                some (JVal.jdict [("Filters", JVal.jlist xs), ("logic", JVal.jstr "AND")])
            | _ => none

/-- A JSON array read back as a list of strings, when every element is a
string. -/
def strsOfJ : List JVal → Option (List String)
  | [] => some []
  | JVal.jstr s :: rest => (strsOfJ rest).map (fun l => s :: l)
  | _ => none

/-- Pydantic validation of `ListParamsSchema.filters : Optional[List[str]]`:
`None` passes, a list of strings passes, anything else (in particular the
dict produced above) raises a validation error. -/
def validateFiltersField : Option JVal → Except String (Option (List String))
  | none => Except.ok none
  | some (JVal.jlist xs) =>
      match strsOfJ xs with
      | some l => Except.ok (some l)
      | none => Except.error "filters: input should be a valid list of strings"
  | some _ => Except.error "filters: input should be a valid list"

structure ListParams where
  offset : Nat
  limit : Nat
  order_by : String
  search : Option String
  filters : Option (List String)
deriving DecidableEq, Repr

/-- `get_list_params`: parse the `filters` JSON string, then build the
`ListParamsSchema` (whose construction validates the field types). -/
def get_list_params (jsonLoads : String → Option JVal)
    (offset limit : Nat) (order_by : String) (search : Option String)
    (filters : Option String) : Except String ListParams :=
  match validateFiltersField (parseFiltersParam jsonLoads filters) with
  | Except.error e => Except.error e
  | Except.ok fs => Except.ok ⟨offset, limit, order_by, search, fs⟩

/-- The endpoint loop over `params.filters` (demo_endpoint.py, lines
100–106): each string is `json.loads`-ed, decode failures are skipped. -/
def endpointParsedFilters (jsonLoads : String → Option JVal)
    (pf : Option (List String)) : List JVal :=
  match pf with
  | none => []
  | some strs => strs.filterMap jsonLoads

/-- `parsed_filters if parsed_filters else None` — the `filters` argument
the endpoint hands to the service layer. -/
def endpointServiceFilters (jsonLoads : String → Option JVal)
    (pf : Option (List String)) : Option (List JVal) :=
  let parsed := endpointParsedFilters jsonLoads pf
  if parsed.isEmpty then none else some parsed

/-- The composed filters pipeline of a list request: dependency parsing
and validation, then the endpoint's re-parsing, producing the value bound
to the service's `filters` argument (or a validation error). -/
def listFiltersPipeline (jsonLoads : String → Option JVal)
    (filters : Option String) : Except String (Option (List JVal)) :=
  match get_list_params jsonLoads 0 100 "-created_at" none filters with
  | Except.error e => Except.error e
  | Except.ok p => Except.ok (endpointServiceFilters jsonLoads p.filters)

/-! ## Helper lemmas -/

/-- Evaluate an optional column-value predicate (`none` means no clause
was contributed; for inspection it selects nothing). -/
def clauseMatchesVal (c : Option (Value → Bool)) (v : Value) : Bool :=
  match c with
  | some p => p v
  | none => false

/-- Evaluate an optional row predicate. -/
def clauseMatchesRow (c : Option (Row → Bool)) (r : Row) : Bool :=
  match c with
  | some p => p r
  | none => false

theorem usPerDay_pos : (0 : Int) < usPerDay := by norm_num [usPerDay]

/-- A midnight lower bound on a timestamp is a lower bound on its day. -/
theorem le_dayOfUs_iff (a t : Int) : a ≤ dayOfUs t ↔ a * usPerDay ≤ t := by
  unfold dayOfUs
  rw [Int.fdiv_eq_ediv _ (le_of_lt usPerDay_pos)]
  exact Int.le_ediv_iff_mul_le usPerDay_pos

/-- A strict midnight upper bound on a timestamp is a strict bound on its
day. -/
theorem dayOfUs_lt_iff (t b : Int) : dayOfUs t < b ↔ t < b * usPerDay := by
  unfold dayOfUs
  rw [Int.fdiv_eq_ediv _ (le_of_lt usPerDay_pos)]
  exact Int.ediv_lt_iff_lt_mul usPerDay_pos

theorem combineRuleClause_part_none (isOr : Bool) (acc : Option (Row → Bool)) :
    combineRuleClause isOr acc none = acc := rfl

theorem combineRuleClause_none_some (isOr : Bool) (p : Row → Bool) :
    combineRuleClause isOr none (some p) = some p := rfl

theorem combineRuleClause_some_some (isOr : Bool) (a p : Row → Bool) :
    combineRuleClause isOr (some a) (some p) =
      some (if isOr then fun r => a r || p r else fun r => a r && p r) := rfl

/-- Evaluation of the per-rule combination fold: with `logical = "or"`
the surviving parts are OR-ed, otherwise AND-ed, onto the accumulator. -/
theorem foldl_combine_eval (isOr : Bool) (g : Option String → Option (Row → Bool))
    (xs : List (Option String)) (r : Row) :
    ∀ acc : Option (Row → Bool),
      clauseMatchesRow
          (xs.foldl (fun clause col => combineRuleClause isOr clause (g col)) acc) r =
        (match acc with
         | none =>
             if isOr then (xs.filterMap g).any (fun p => p r)
             else !(xs.filterMap g).isEmpty && (xs.filterMap g).all (fun p => p r)
         | some a =>
             if isOr then a r || (xs.filterMap g).any (fun p => p r)
             else a r && (xs.filterMap g).all (fun p => p r)) := by
  induction xs with
  | nil =>
      intro acc
      cases acc <;> cases isOr <;> simp [clauseMatchesRow]
  | cons x rest ih =>
      intro acc
      cases hx : g x with
      | none =>
          simp only [List.foldl_cons, hx, combineRuleClause_part_none,
            List.filterMap_cons]
          exact ih acc
      | some p =>
          cases acc with
          | none =>
              simp only [List.foldl_cons, hx, combineRuleClause_none_some,
                List.filterMap_cons]
              rw [ih (some p)]
              cases isOr <;> simp
          | some a =>
              simp only [List.foldl_cons, hx, combineRuleClause_some_some,
                List.filterMap_cons]
              rw [ih (some _)]
              cases isOr <;> simp [Bool.or_assoc, Bool.and_assoc]

/-- The combination fold returns no clause exactly when the accumulator
was empty and no part survived. -/
theorem foldl_combine_none (isOr : Bool) (g : Option String → Option (Row → Bool))
    (xs : List (Option String)) :
    ∀ acc : Option (Row → Bool),
      (xs.foldl (fun clause col => combineRuleClause isOr clause (g col)) acc = none) ↔
        (acc = none ∧ xs.filterMap g = []) := by
  induction xs with
  | nil => intro acc; simp
  | cons x rest ih =>
      intro acc
      cases hx : g x with
      | none =>
          simp only [List.foldl_cons, hx, combineRuleClause_part_none,
            List.filterMap_cons]
          exact (ih acc).trans (by simp)
      | some p =>
          cases acc with
          | none =>
              simp only [List.foldl_cons, hx, combineRuleClause_none_some,
                List.filterMap_cons]
              rw [ih (some p)]
              simp
          | some a =>
              simp only [List.foldl_cons, hx, combineRuleClause_some_some,
                List.filterMap_cons]
              rw [ih (some _)]
              simp

/-! ## Claim C1 — multi-column rule composition -/

/-- A rule targeting two text columns via the `"search"` sentinel with
the default `logical = "and"`. -/
def multiColumnAndRule : FilterRule :=
  { column := some "search", columns := some [some "name", some "logo"],
    operator := some "contains", value := JVal.jstr "x", logical := "and" }

/-- The same rule restricted to its first column. -/
def multiColumnNameRule : FilterRule :=
  { multiColumnAndRule with columns := some [some "name"] }

/-- The same rule restricted to its second column. -/
def multiColumnLogoRule : FilterRule :=
  { multiColumnAndRule with columns := some [some "logo"] }

/-- A row whose `name` contains `"x"` but whose `logo` does not. -/
def multiColumnRow : Row :=
  [("name", Value.vstr "xyz"), ("logo", Value.vstr "abc"),
   ("status", Value.vstr "created")]

/-- **C1 — counterexample.** The claim says a rule that resolves to
multiple target columns ORs the per-column non-null predicates even when
its `logical` field is the default `"and"`. On `multiColumnRow` the
`name` predicate alone holds and the `logo` predicate alone fails, so an
OR-combination would match — but the composed rule predicate evaluates to
`false`: with `logical = "and"` the source ANDs the per-column parts. -/
theorem c1_multi_column_or_counterexample :
    clauseMatchesRow (buildRuleClause demoColumns multiColumnAndRule 0 0)
        multiColumnRow = false ∧
    clauseMatchesRow (buildRuleClause demoColumns multiColumnNameRule 0 0)
        multiColumnRow = true ∧
    clauseMatchesRow (buildRuleClause demoColumns multiColumnLogoRule 0 0)
        multiColumnRow = false ∧
    (buildRuleClause demoColumns multiColumnAndRule 0 0).isSome = true := by
  refine ⟨rfl, rfl, rfl, rfl⟩

/-- **C1 — amended.** For every filter rule (in particular one resolving
to multiple target columns via `column == "search"`), the composer
combines the per-column non-null predicates with the rule's own `logical`
field: OR when `logical == "or"`, and AND otherwise — including the
default `"and"`. A rule contributes no predicate exactly when no resolved
column yields one. -/
theorem c1_rule_combination (cols : List ColSpec) (f : FilterRule)
    (today now : Int) (r : Row) :
    clauseMatchesRow (buildRuleClause cols f today now) r =
      (if f.logical == "or" then (ruleParts cols f today now).any (fun p => p r)
       else !(ruleParts cols f today now).isEmpty &&
         (ruleParts cols f today now).all (fun p => p r)) ∧
    (buildRuleClause cols f today now = none ↔ ruleParts cols f today now = []) := by
  constructor
  · have h := foldl_combine_eval (f.logical == "or")
      (rulePartFor cols (map_frontend_operator f.operator) f today now)
      (ruleTargetCols f) r none
    simpa [buildRuleClause, ruleParts] using h
  · have h := foldl_combine_none (f.logical == "or")
      (rulePartFor cols (map_frontend_operator f.operator) f today now)
      (ruleTargetCols f) none
    simpa [buildRuleClause, ruleParts] using h

/-! ## Claim C2 — relative-range `previous` windows -/

/-- A midnight lower bound, phrased on the day number. -/
theorem dtGe_day_window (a t : Int) :
    (dtGeV (Value.vdt t) (a * usPerDay) = true) ↔ a ≤ dayOfUs t := by
  simp only [dtGeV, decide_eq_true_eq]
  exact (le_dayOfUs_iff a t).symm

/-- A closed-open midnight window, phrased on the day number. -/
theorem dt_day_window (lo hi t : Int) :
    ((dtGeV (Value.vdt t) (lo * usPerDay) && dtLtV (Value.vdt t) (hi * usPerDay)) = true) ↔
      (lo ≤ dayOfUs t ∧ dayOfUs t ≤ hi - 1) := by
  simp only [dtGeV, dtLtV, Bool.and_eq_true, decide_eq_true_eq]
  rw [← le_dayOfUs_iff, ← dayOfUs_lt_iff]
  omega

/-- **C2 — counterexample.** The claim says that with `includeToday=true`
the `previous`/`day`/`count n` window is `[D−(n−1), D]`, "inclusive of D
and nothing after D". With `D = 0`, `n = 7`, a row timestamped at the
start of day `1` — strictly after `D` — satisfies the built predicate:
the source emits only a lower bound in the `includeToday` case. -/
theorem c2_include_today_upper_bound_counterexample :
    clauseMatchesVal
        (buildClausePart "datetime" (some "previous") JVal.jnull JVal.jnull false
          (some ⟨"day", 7, true⟩) 0 0) (Value.vdt usPerDay) = true ∧
    dayOfUs usPerDay = 1 := by
  exact ⟨by decide, by decide⟩

/-- **C2 — amended.** For a relative-range `previous` filter on a
datetime column evaluated on day `D` with count `n`: with
`includeToday=false` the predicate matches exactly the rows whose date
lies in `[D − n·m, D − 1]` (so `D` and `D − (n·m+1)` are excluded); with
`includeToday=true` the predicate is only the lower bound
`date ≥ D − (n·m − 1)` — rows dated after `D` also match. The period
multiplier `m` is the fixed approximation 1/7/30/365 for
day/week/month/year. -/
theorem c2_previous_range_characterization
    (value value2 : JVal) (cs : Bool) (pt : String) (m n : Int) (inc : Bool)
    (D now : Int)
    (hpt : (pt = "day" ∧ m = 1) ∨ (pt = "week" ∧ m = 7) ∨
      (pt = "month" ∧ m = 30) ∨ (pt = "year" ∧ m = 365)) :
    ∃ p, buildClausePart "datetime" (some "previous") value value2 cs
        (some ⟨pt, n, inc⟩) D now = some p ∧
      (inc = true → ∀ t : Int, (p (Value.vdt t) = true ↔ D - (n * m - 1) ≤ dayOfUs t)) ∧
      (inc = false → ∀ t : Int,
        (p (Value.vdt t) = true ↔ (D - n * m ≤ dayOfUs t ∧ dayOfUs t ≤ D - 1))) := by
  rcases hpt with ⟨hpt, hm⟩ | ⟨hpt, hm⟩ | ⟨hpt, hm⟩ | ⟨hpt, hm⟩ <;> subst hpt <;> subst hm <;>
    cases inc
  · refine ⟨_, rfl, ?_, ?_⟩
    · intro h; exact absurd h (by decide)
    · intro _ t
      simp only [dt_day_window, Int.mul_one]
  · refine ⟨_, rfl, ?_, ?_⟩
    · intro _ t
      simp only [dtGe_day_window, Int.mul_one]
    · intro h; exact absurd h (by decide)
  · refine ⟨_, rfl, ?_, ?_⟩
    · intro h; exact absurd h (by decide)
    · intro _ t
      simp only [dt_day_window, Int.mul_one]
  · refine ⟨_, rfl, ?_, ?_⟩
    · intro _ t
      simp only [dtGe_day_window, Int.mul_one]
    · intro h; exact absurd h (by decide)
  · refine ⟨_, rfl, ?_, ?_⟩
    · intro h; exact absurd h (by decide)
    · intro _ t
      simp only [dt_day_window, Int.mul_one]
  · refine ⟨_, rfl, ?_, ?_⟩
    · intro _ t
      simp only [dtGe_day_window, Int.mul_one]
    · intro h; exact absurd h (by decide)
  · refine ⟨_, rfl, ?_, ?_⟩
    · intro h; exact absurd h (by decide)
    · intro _ t
      simp only [dt_day_window, Int.mul_one]
  · refine ⟨_, rfl, ?_, ?_⟩
    · intro _ t
      simp only [dtGe_day_window, Int.mul_one]
    · intro h; exact absurd h (by decide)

/-- **C2 — witness.** The amended characterization applied at
day/count 7/includeToday=false on day `D = 0`: a row on day `−1` is
matched. -/
theorem c2_previous_range_witness :
    ∃ p, buildClausePart "datetime" (some "previous") JVal.jnull JVal.jnull false
        (some ⟨"day", 7, false⟩) 0 0 = some p ∧
      p (Value.vdt (-86400000000)) = true := by
  obtain ⟨p, hp, _, hf⟩ :=
    c2_previous_range_characterization JVal.jnull JVal.jnull false "day" 1 7 false 0 0
      (Or.inl ⟨rfl, rfl⟩)
  exact ⟨p, hp, (hf rfl (-86400000000)).2 (by decide)⟩

/-! ## Claim C3 — pagination invariants of the repository -/

/-- `(tc + l - 1) / l` is the ceiling of `tc / l`: the two inequalities
pin it as the least number of pages covering `tc` rows. -/
theorem ceil_div_bounds (tc l : Nat) (hl : 0 < l) :
    tc ≤ ((tc + l - 1) / l) * l ∧ ((tc + l - 1) / l) * l < tc + l := by
  have hA : ((tc + l - 1) / l) * l ≤ tc + l - 1 := Nat.div_mul_le_self _ _
  have hB : tc + l - 1 < l * ((tc + l - 1) / l + 1) := Nat.lt_mul_div_succ _ hl
  rw [Nat.mul_add, Nat.mul_one, Nat.mul_comm l ((tc + l - 1) / l)] at hB
  set X := ((tc + l - 1) / l) * l with hX
  omega

/-- **C3.** For every query result of the paginated executor: the page
never exceeds `limit`; when `limit > 0`, `total_pages` is exactly
`ceil(total_count / limit)` (characterised by the two bounds
`total_count ≤ total_pages·limit < total_count + limit`); and when
`limit = 0`, `total_pages = 1` with no division. -/
theorem c3_pagination_invariant (cols : List ColSpec) (filters : FiltersInput)
    (search : Option String) (order_by : Option String) (skip limit : Nat)
    (today now : Int) (db : List Row) :
    (get_all cols filters search order_by skip limit today now db).data.length ≤ limit ∧
    (0 < limit →
      (get_all cols filters search order_by skip limit today now db).pagination.total_count ≤
        (get_all cols filters search order_by skip limit today now db).pagination.total_pages * limit ∧
      (get_all cols filters search order_by skip limit today now db).pagination.total_pages * limit <
        (get_all cols filters search order_by skip limit today now db).pagination.total_count + limit) ∧
    (limit = 0 →
      (get_all cols filters search order_by skip limit today now db).pagination.total_pages = 1) := by
  refine ⟨?_, ?_, ?_⟩
  · exact List.length_take_le _ _
  · intro hl
    have hne : (limit == 0) = false := by
      simp [Nat.pos_iff_ne_zero.mp hl]
    simp only [get_all, mkPagination, pyTotalPages, hne, Bool.false_eq_true, if_false]
    exact ceil_div_bounds _ _ hl
  · intro hz
    subst hz
    simp [get_all, mkPagination, pyTotalPages]

/-- **C3 — witness.** Instantiated at `limit = 3` over a five-row table
(four surviving rows), and at `limit = 0`. -/
theorem c3_pagination_witness :
    (get_all demoColumns FiltersInput.fnone none none 0 3 0 0 []).data.length ≤ 3 ∧
    ((get_all demoColumns FiltersInput.fnone none none 0 3 0 0 []).pagination.total_count ≤
      (get_all demoColumns FiltersInput.fnone none none 0 3 0 0 []).pagination.total_pages * 3) ∧
    (get_all demoColumns FiltersInput.fnone none none 0 0 0 0 []).pagination.total_pages = 1 := by
  refine ⟨(c3_pagination_invariant demoColumns FiltersInput.fnone none none 0 3 0 0 []).1,
    ((c3_pagination_invariant demoColumns FiltersInput.fnone none none 0 3 0 0 []).2.1
      (by decide)).1,
    (c3_pagination_invariant demoColumns FiltersInput.fnone none none 0 0 0 0 []).2.2 rfl⟩

/-! ## Claim C4 — soft-deleted rows never listed -/

/-- Ordering only permutes (or keeps) the rows. -/
theorem mem_applyOrder (cols : List ColSpec) (ob : Option String)
    (rows : List Row) (r : Row) : r ∈ applyOrder cols ob rows ↔ r ∈ rows := by
  cases ob with
  | none =>
      by_cases h : hasCol cols "created_at" = true
      · simp [applyOrder, h, List.mem_mergeSort]
      · simp [applyOrder, h]
  | some s =>
      by_cases h1 : (s == "") = true
      · by_cases h2 : hasCol cols "created_at" = true
        · simp [applyOrder, h1, h2, List.mem_mergeSort]
        · simp [applyOrder, h1, h2]
      · by_cases h2 : hasCol cols (if strStartsWithDash s then strTail s else s) = true
        · simp [applyOrder, h1, h2, List.mem_mergeSort]
        · simp [applyOrder, h1, h2]

/-- **C4.** For every list query against a model with a `status`
attribute, a row whose `status` is `"deleted"` never appears in the
returned page, for any filters, search term, tree-level logic, ordering
or pagination: the soft-delete predicate is conjoined to every other
clause. -/
theorem c4_soft_delete_excluded (cols : List ColSpec) (filters : FiltersInput)
    (search : Option String) (order_by : Option String) (skip limit : Nat)
    (today now : Int) (db : List Row) (r : Row)
    (hs : hasCol cols "status" = true)
    (hd : rowGet r "status" = Value.vstr "deleted") :
    r ∉ (get_all cols filters search order_by skip limit today now db).data := by
  intro hmem
  have h1 : r ∈ applyOrder cols order_by (filteredRows cols filters search today now db) :=
    List.mem_of_mem_drop (List.mem_of_mem_take hmem)
  have h2 : r ∈ filteredRows cols filters search today now db :=
    (mem_applyOrder _ _ _ _).1 h1
  have hclause : (fun rr : Row =>
      match rowGet rr "status" with
      | Value.vstr s => s != "deleted"
      | _ => false) ∈ finalClauses cols filters search today now := by
    simp only [finalClauses, hs, if_true]
    exact List.mem_append_right _ (List.mem_singleton.mpr rfl)
  have hne : (finalClauses cols filters search today now).isEmpty = false := by
    cases hfc : finalClauses cols filters search today now with
    | nil => rw [hfc] at hclause; cases hclause
    | cons a l => rfl
  rw [filteredRows] at h2
  rw [if_neg (by simp [hne])] at h2
  have h3 := (List.mem_filter.mp h2).2
  rw [List.all_eq_true] at h3
  have h4 := h3 _ hclause
  rw [hd] at h4
  exact absurd h4 (by decide)

/-- A soft-deleted row used by the C4 witness. -/
def deletedRow : Row :=
  [("name", Value.vstr "gone"), ("status", Value.vstr "deleted"),
   ("created_at", Value.vdt 5)]

/-- **C4 — witness.** A deleted row is not returned from a one-row
table. -/
theorem c4_soft_delete_witness :
    deletedRow ∉
      (get_all demoColumns FiltersInput.fnone none none 0 20 0 0 [deletedRow]).data :=
  c4_soft_delete_excluded demoColumns FiltersInput.fnone none none 0 20 0 0
    [deletedRow] deletedRow (by decide) (by decide)

/-! ## Claim C5 — invalid `order_by` field -/

/-- Two live rows whose underlying (insertion) order is ascending by
creation timestamp. -/
def orderRowEarly : Row :=
  [("name", Value.vstr "a"), ("status", Value.vstr "created"),
   ("created_at", Value.vdt 1)]

def orderRowLate : Row :=
  [("name", Value.vstr "b"), ("status", Value.vstr "created"),
   ("created_at", Value.vdt 2)]

/-- **C5 — counterexample.** The claim says a given `order_by` naming a
nonexistent field falls back to descending creation timestamp. With
`order_by = "bogus"` over rows inserted in ascending `created_at` order,
the page comes back in the underlying ascending order `[early, late]` —
no descending sort is applied (descending would require `late` first). -/
theorem c5_invalid_order_by_counterexample :
    (get_all demoColumns FiltersInput.fnone none (some "bogus") 0 20 0 0
        [orderRowEarly, orderRowLate]).data = [orderRowEarly, orderRowLate] ∧
    (get_all demoColumns FiltersInput.fnone none (some "bogus") 0 20 0 0
        [orderRowEarly, orderRowLate]).data ≠ [orderRowLate, orderRowEarly] ∧
    rowGet orderRowEarly "created_at" = Value.vdt 1 ∧
    rowGet orderRowLate "created_at" = Value.vdt 2 := by
  exact ⟨by decide, by decide, by decide, by decide⟩

/-- **C5 — amended.** When a non-empty `order_by` names a field that does
not exist on the entity, NO ordering is applied: the page is the
offset/limit window of the filtered rows in their underlying order. (The
descending-`created_at` default applies only when `order_by` is absent or
empty.) -/
theorem c5_invalid_order_by_unsorted (cols : List ColSpec) (filters : FiltersInput)
    (search : Option String) (ob : String) (skip limit : Nat) (today now : Int)
    (db : List Row)
    (hne : ob ≠ "")
    (hinv : hasCol cols (if strStartsWithDash ob then strTail ob else ob) = false) :
    (get_all cols filters search (some ob) skip limit today now db).data =
      ((filteredRows cols filters search today now db).drop skip).take limit := by
  have horder : applyOrder cols (some ob) (filteredRows cols filters search today now db) =
      filteredRows cols filters search today now db := by
    have h1 : (ob == "") = false := by
      simp [hne]
    simp [applyOrder, h1, hinv]
  simp only [get_all, horder]

/-- **C5 — witness.** The amended statement applied to the counterexample
table. -/
theorem c5_invalid_order_by_witness :
    (get_all demoColumns FiltersInput.fnone none (some "bogus") 0 20 0 0
        [orderRowEarly, orderRowLate]).data =
      ((filteredRows demoColumns FiltersInput.fnone none 0 0
          [orderRowEarly, orderRowLate]).drop 0).take 20 :=
  c5_invalid_order_by_unsorted demoColumns FiltersInput.fnone none "bogus" 0 20 0 0
    [orderRowEarly, orderRowLate] (by decide) (by decide)

/-! ## Claim C6 — boolean rules with unrecognized values -/

/-- **C6 — counterexample.** The claim says a boolean `is` rule with the
value `"yes"` (neither a boolean nor `"true"`/`"false"`) contributes no
predicate. It does contribute one: `column IS NULL`, which moreover
excludes a row whose column holds `true`. -/
theorem c6_bool_unrecognized_counterexample :
    (buildClausePart "boolean" (some "is") (JVal.jstr "yes") JVal.jnull false
        none 0 0).isSome = true ∧
    clauseMatchesVal
        (buildClausePart "boolean" (some "is") (JVal.jstr "yes") JVal.jnull false
          none 0 0) (Value.vbool true) = false := by
  exact ⟨by decide, by decide⟩

/-- **C6 — amended.** For a boolean-typed column with operator `is` or
`is_not`, a value that is neither a native boolean nor `"true"`/`"false"`
(case-insensitive) coerces to `None`, and the rule contributes the
predicate `column IS NULL` (for `is`) or `column IS NOT NULL` (for
`is_not`) — it is silently turned into a null check, not dropped, and
never a crash. -/
theorem c6_bool_unrecognized_is_null (v v2 : JVal) (cs : Bool)
    (rr : Option RelRange) (today now : Int) (h : pyBoolOf v = none) :
    (buildClausePart "boolean" (some "is") v v2 cs rr today now).isSome = true ∧
    (∀ cv, clauseMatchesVal (buildClausePart "boolean" (some "is") v v2 cs rr today now) cv =
      (cv == Value.vnull)) ∧
    (∀ cv, clauseMatchesVal (buildClausePart "boolean" (some "is_not") v v2 cs rr today now) cv =
      !(cv == Value.vnull)) := by
  have hred : buildClausePart "boolean" (some "is") v v2 cs rr today now =
      some (fun cv =>
        match pyBoolOf v with
        | some b => cv == Value.vbool b
        | none => cv == Value.vnull) := rfl
  have hred2 : buildClausePart "boolean" (some "is_not") v v2 cs rr today now =
      some (fun cv =>
        match pyBoolOf v with
        | some b => cv != Value.vbool b
        | none => cv != Value.vnull) := rfl
  refine ⟨by rw [hred]; rfl, ?_, ?_⟩
  · intro cv
    rw [hred]
    simp [clauseMatchesVal, h]
  · intro cv
    rw [hred2]
    simp [clauseMatchesVal, h, bne]

/-- **C6 — witness.** The amended statement at the concrete value
`"maybe"` and a `true`-valued column. -/
theorem c6_bool_unrecognized_witness :
    (buildClausePart "boolean" (some "is") (JVal.jstr "maybe") JVal.jnull false
        none 0 0).isSome = true ∧
    clauseMatchesVal
        (buildClausePart "boolean" (some "is") (JVal.jstr "maybe") JVal.jnull false
          none 0 0) (Value.vbool true) = (Value.vbool true == Value.vnull) :=
  ⟨(c6_bool_unrecognized_is_null (JVal.jstr "maybe") JVal.jnull false none 0 0
      (by decide)).1,
   (c6_bool_unrecognized_is_null (JVal.jstr "maybe") JVal.jnull false none 0 0
      (by decide)).2.1 (Value.vbool true)⟩

/-! ## Claim C7 — storage failures wrapped, never partial -/

/-- **C7.** If the count query fails, the call fails with the wrapped
"data retrieval" message and the data query's outcome is irrelevant; if
the count succeeds and the data query fails, the call fails with the same
wrapped message (the partial count result is discarded); the call
succeeds exactly when both queries succeed, returning both the rows and
the count-derived pagination. Predicate construction itself is a total
function in this development (`finalClauses` is a plain definition) and
contributes no failure. -/
theorem c7_storage_error_wrapping (countRes : Except String (Option Nat))
    (dataRes : Except String (List Row)) (skip limit : Nat) :
    (∀ e, countRes = Except.error e →
      get_all_run countRes dataRes skip limit =
        Except.error (dataRetrievalErrorMsg e)) ∧
    (∀ c e, countRes = Except.ok c → dataRes = Except.error e →
      get_all_run countRes dataRes skip limit =
        Except.error (dataRetrievalErrorMsg e)) ∧
    (∀ c d, countRes = Except.ok c → dataRes = Except.ok d →
      get_all_run countRes dataRes skip limit =
        Except.ok ⟨d, mkPagination (c.getD 0) skip limit⟩) ∧
    (∀ q, get_all_run countRes dataRes skip limit = Except.ok q →
      (∃ c, countRes = Except.ok c) ∧ (∃ d, dataRes = Except.ok d)) := by
  refine ⟨?_, ?_, ?_, ?_⟩
  · intro e he
    rw [he]
    rfl
  · intro c e hc hd
    rw [hc, hd]
    rfl
  · intro c d hc hd
    rw [hc, hd]
    rfl
  · intro q hq
    cases countRes with
    | error e => rw [show get_all_run (Except.error e) dataRes skip limit =
        Except.error (dataRetrievalErrorMsg e) from rfl] at hq; cases hq
    | ok c =>
        cases dataRes with
        | error e => rw [show get_all_run (Except.ok c) (Except.error e) skip limit =
            Except.error (dataRetrievalErrorMsg e) from rfl] at hq; cases hq
        | ok d => exact ⟨⟨c, rfl⟩, ⟨d, rfl⟩⟩

/-- **C7 — witness.** A failing count query over a succeeding data query
yields the wrapped error; two successes yield the full result. -/
theorem c7_storage_error_witness :
    get_all_run (Except.error "boom") (Except.ok []) 0 20 =
      Except.error (dataRetrievalErrorMsg "boom") ∧
    get_all_run (Except.ok (some 5)) (Except.ok []) 0 20 =
      Except.ok ⟨[], mkPagination 5 0 20⟩ :=
  ⟨(c7_storage_error_wrapping (Except.error "boom") (Except.ok []) 0 20).1 "boom" rfl,
   (c7_storage_error_wrapping (Except.ok (some 5)) (Except.ok []) 0 20).2.2.1
     (some 5) [] rfl rfl⟩

/-! ## Claim C8 — `parse_date_value` dispatch -/

/-- **C8.** `parse_date_value` is total (it returns an `Option`, never
raising): native datetimes pass through unchanged; dates widen to the
start of their day; strings try ISO (with `Z` replaced by `+00:00`)
first, then the four fallback formats `%Y-%m-%d`, `%Y-%m-%d %H:%M:%S`,
`%Y/%m/%d`, `%d-%m-%Y` in that order with the first match winning, and
yield `none` on total failure (a string never reaches the numeric
branch); numbers parse as epoch seconds (out-of-range values fall through
to `none`); `None` and any other object yield `none`. The concrete
equations exercise the Z-normalisation, the third and fourth fallback
formats, and total failure. -/
theorem c8_parse_date_value_dispatch :
    parse_date_value PyObj.pynone = none ∧
    (∀ t, parse_date_value (PyObj.pydt t) = some t) ∧
    (∀ d, parse_date_value (PyObj.pydate d) = some (d * usPerDay)) ∧
    (∀ s, parse_date_value (PyObj.pystr s) =
      (match parseIso (pyReplaceZ s) with
       | some t => some t
       | none => tryFormats strptimeFormats s)) ∧
    (∀ s, tryFormats strptimeFormats s =
      (match strptimeYmd s with
       | some t => some t
       | none =>
         match strptimeYmdHms s with
         | some t => some t
         | none =>
           match strptimeYmdSlash s with
           | some t => some t
           | none => strptimeDmy s)) ∧
    (∀ n, parse_date_value (PyObj.pynum n) = fromtimestampOpt n) ∧
    parse_date_value PyObj.pyother = none ∧
    parse_date_value (PyObj.pystr "2021-03-05T10:20:30Z") =
      some ((daysFromCivil 2021 3 5 * 86400 + 37230) * usPerSec) ∧
    parse_date_value (PyObj.pystr "2021/03/05") =
      some (daysFromCivil 2021 3 5 * usPerDay) ∧
    parse_date_value (PyObj.pystr "05-03-2021") =
      some (daysFromCivil 2021 3 5 * usPerDay) ∧
    parse_date_value (PyObj.pystr "not a date") = none := by
  refine ⟨rfl, fun t => rfl, fun d => rfl, fun s => rfl, ?_,
    fun n => rfl, rfl, by decide, by decide, by decide, by decide⟩
  intro s
  simp only [strptimeFormats, tryFormats]
  cases strptimeYmd s with
  | some t => rfl
  | none =>
      cases strptimeYmdHms s with
      | some t => rfl
      | none =>
          cases strptimeYmdSlash s with
          | some t => rfl
          | none =>
              cases strptimeDmy s with
              | some t => rfl
              | none => rfl

/-! ## Claim C9 — malformed `filters` JSON ignored -/

/-- **C9.** When the `filters` query parameter is a string `json.loads`
rejects, `get_list_params` produces exactly the parameters it would
produce with `filters` omitted, and the whole filters pipeline (dependency
parsing, schema validation, endpoint re-parsing) hands the service
`None` — no filter predicates and no surfaced error, identical to the
omitted case. -/
theorem c9_malformed_filters_ignored (jsonLoads : String → Option JVal)
    (offset limit : Nat) (order_by : String) (search : Option String)
    (s : String) (h : jsonLoads s = none) :
    get_list_params jsonLoads offset limit order_by search (some s) =
      get_list_params jsonLoads offset limit order_by search none ∧
    listFiltersPipeline jsonLoads (some s) = Except.ok none ∧
    listFiltersPipeline jsonLoads none = Except.ok none := by
  have hp : parseFiltersParam jsonLoads (some s) = none := by
    by_cases hs : (s == "") = true
    · simp [parseFiltersParam, hs]
    · simp [parseFiltersParam, hs, h]
  refine ⟨?_, ?_, rfl⟩
  · unfold get_list_params
    rw [hp]
    rfl
  · unfold listFiltersPipeline get_list_params
    rw [hp]
    rfl

/-- **C9 — witness.** A concrete malformed string under a decoder that
rejects it. -/
theorem c9_malformed_filters_witness :
    get_list_params (fun _ => none) 0 100 "-created_at" none (some "not json") =
      get_list_params (fun _ => none) 0 100 "-created_at" none none ∧
    listFiltersPipeline (fun _ => none) (some "not json") = Except.ok none :=
  ⟨(c9_malformed_filters_ignored (fun _ => none) 0 100 "-created_at" none
      "not json" rfl).1,
   (c9_malformed_filters_ignored (fun _ => none) 0 100 "-created_at" none
      "not json" rfl).2.1⟩

/-! ## Claim C10 — endpoint pagination is recomputed from the page -/

/-- **C10.** In the HTTP list response, `pagination.total_count` equals
the length of the returned page (the service discards the repository's
independent count), hence never exceeds `limit`; `total_pages` is `0`
whenever the page is empty, and otherwise `ceil(page_length / limit)` —
it is not the size of the full matching set. -/
theorem c10_endpoint_pagination (cols : List ColSpec) (filters : FiltersInput)
    (search : Option String) (order_by : Option String) (offset limit : Nat)
    (today now : Int) (db : List Row) :
    (list_workspaces cols filters search order_by offset limit today now db).pagination.total_count =
      (list_workspaces cols filters search order_by offset limit today now db).data.length ∧
    (list_workspaces cols filters search order_by offset limit today now db).pagination.total_count ≤
      limit ∧
    ((list_workspaces cols filters search order_by offset limit today now db).data.length = 0 →
      (list_workspaces cols filters search order_by offset limit today now db).pagination.total_pages = 0) ∧
    (0 < (list_workspaces cols filters search order_by offset limit today now db).data.length →
      (list_workspaces cols filters search order_by offset limit today now db).pagination.total_pages =
        ((list_workspaces cols filters search order_by offset limit today now db).data.length
          + limit - 1) / limit) := by
  refine ⟨rfl, ?_, ?_, ?_⟩
  · show (list_all cols filters search order_by offset limit today now db).length ≤ limit
    exact List.length_take_le _ _
  · intro hlen
    have h0 : (list_all cols filters search order_by offset limit today now db).length = 0 := hlen
    simp [list_workspaces, h0]
  · intro hlen
    have h0 : 0 < (list_all cols filters search order_by offset limit today now db).length := hlen
    simp [list_workspaces, h0]

/-- **C10 — witness.** Over an empty table (with an `order_by` naming no
field, so no sort runs): the page is empty, the reported `total_count` is
its length, and `total_pages` is `0`. -/
theorem c10_endpoint_pagination_witness :
    (list_workspaces demoColumns FiltersInput.fnone none (some "x") 0 3 0 0 []).pagination.total_count =
      (list_workspaces demoColumns FiltersInput.fnone none (some "x") 0 3 0 0 []).data.length ∧
    (list_workspaces demoColumns FiltersInput.fnone none (some "x") 0 3 0 0 []).pagination.total_count ≤ 3 ∧
    (list_workspaces demoColumns FiltersInput.fnone none (some "x") 0 3 0 0 []).pagination.total_pages = 0 :=
  ⟨(c10_endpoint_pagination demoColumns FiltersInput.fnone none (some "x") 0 3 0 0 []).1,
   (c10_endpoint_pagination demoColumns FiltersInput.fnone none (some "x") 0 3 0 0 []).2.1,
   (c10_endpoint_pagination demoColumns FiltersInput.fnone none (some "x") 0 3 0 0 []).2.2.1
     (by decide)⟩
